import Mathlib

/-!
Shallow embedding of src/adala/agents/base.py (the Agent learning loop of the
Adala repository): the skill selector, the prompt refiner (pe_optimization),
the training-example builder inside Agent.learn, and the construction-time
validator verify_input_parameters.

Conventions of the embedding:
* Python floats carrying accuracies/thresholds are modelled as rationals (ℚ);
  only order comparisons are performed on them in the source.
* Python exceptions (KeyError from dict/str.format lookups, errors raised by
  the teacher runtime) are modelled with Except String / an Option String
  error component; an exception escaping a code region is an Except.error.
* Classes of this repository that are not under src/ (SkillSet,
  EnvironmentFeedback, Environment, Runtime) are opaque collaborators; the
  small parts of their interface the loop reads are modelled from the spec
  and marked as such in their doc comments.
-/

set_option maxHeartbeats 1000000

namespace Adala

/-- Python values that can appear in a cell of the merged predictions/feedback
table, restricted to what the learning loop inspects: strings, the float NaN
that pandas uses for a missing value, and None. -/
inductive Cell where
  | cstr : String → Cell
  | cnan : Cell
  | cnone : Cell
deriving DecidableEq

/-- Python truthiness bool(v) as used by the guard `if not row[...]` in
Agent.learn: the empty string and None are falsy; the float NaN is truthy
(bool of any nonzero float, NaN included, is True in Python). -/
def Cell.truthy : Cell → Bool
  | Cell.cstr s => s ≠ ""
  | Cell.cnan => true
  | Cell.cnone => false

/-- Python str() rendering of a cell, as performed by str.format and
f-string interpolation: str(nan) = "nan", str(None) = "None". -/
def Cell.render : Cell → String
  | Cell.cstr s => s
  | Cell.cnan => "nan"
  | Cell.cnone => "None"

/-- A row of a table: ordered association of column names to cell values,
as produced by DataFrame.to_dict(orient="records"). -/
abbrev Row := List (String × Cell)

/-- First-match association lookup, the semantics of a Python dict access
that returns none when the key is missing. -/
def lookupIn {α : Type} (k : String) : List (String × α) → Option α
  | [] => none
  | (k2, v) :: rest => if k = k2 then some v else lookupIn k rest

/-- One fragment of a Python str.format template: literal text or a named
placeholder field. -/
inductive Frag where
  | lit : String → Frag
  | field : String → Frag
deriving DecidableEq

/-- A str.format template is a sequence of fragments. -/
abbrev Template := List Frag

/-- The literal source text of a template, with placeholders written between
braces: this is what the f-string interpolations of skill.input_template and
skill.output_template insert into the refinement dialogue. -/
def templateText : Template → String
  | [] => ""
  | Frag.lit s :: t => s ++ templateText t
  | Frag.field n :: t => "\x7b" ++ n ++ "\x7d" ++ templateText t

/-- Python template.format(**row): renders each placeholder with the str() of
the row value, raising KeyError (modelled as Except.error) when a referenced
field is absent from the row; nothing is silently substituted. -/
def formatTemplate (row : Row) : Template → Except String String
  | [] => Except.ok ""
  | Frag.lit s :: t => Except.map (fun r => s ++ r) (formatTemplate row t)
  | Frag.field n :: t =>
    match lookupIn n row with
    | none => Except.error ("KeyError: " ++ n)
    | some v => Except.map (fun r => Cell.render v ++ r) (formatTemplate row t)

/-- A skill, restricted to the fields that src/adala/agents/base.py actually
reads and writes: name, the mutable instructions string, and the two render
templates. -/
structure Skill where
  name : String
  instructions : String
  input_template : Template
  output_template : Template
deriving DecidableEq

/-- Modelled from the spec: the SkillSet class is not under src/. Spec §3
describes it as an ordered mapping from skill name to Skill together with an
ordered mapping from output-field name to owning skill name, exposed through
get_skill_outputs. -/
structure SkillSet where
  skills : List Skill
  skill_outputs : List (String × String)
deriving DecidableEq

/-- Modelled from the spec: get_skill_outputs() returns the ordered
output-name → skill-name mapping (spec §6). -/
def SkillSet.get_skill_outputs (ss : SkillSet) : List (String × String) :=
  ss.skill_outputs

/-- Indexing self.skills[train_skill_name]: first skill with the given name,
none when absent. -/
def SkillSet.find? (ss : SkillSet) (nm : String) : Option Skill :=
  List.find? (fun sk => sk.name == nm) ss.skills

/-- The in-place mutation train_skill.instructions = new_instructions seen at
the SkillSet level: the named skill's instructions are replaced, every other
skill and all identities are untouched. -/
def SkillSet.updateInstructions (ss : SkillSet) (nm : String) (instr : String) :
    SkillSet :=
  { ss with
    skills := List.map
      (fun sk => if sk.name = nm then { sk with instructions := instr } else sk)
      ss.skills }

/-- A pandas DataFrame restricted to what the learning loop reads: the list
of column names and the list of rows (in index order). -/
structure Table where
  cols : List String
  rows : List Row
deriving DecidableEq

/-- Modelled from the spec: EnvironmentFeedback (adala.environments.base is
not under src/) carries a row-aligned feedback table plus a derived accuracy
summary, a mapping from output name to a scalar (spec §3, Feedback). -/
structure EnvironmentFeedback where
  feedback : Table
  accuracy : List (String × ℚ)
deriving DecidableEq

/-- Modelled from the spec: get_accuracy() returns the derived accuracy
summary mapping of the feedback. -/
def EnvironmentFeedback.get_accuracy (fb : EnvironmentFeedback) :
    List (String × ℚ) :=
  fb.accuracy

/-- The scan inside Agent.select_skill_to_train (base.py lines 220-225): walk
the output-name → skill-name pairs in order; the dict access
accuracy[skill_output] raises KeyError on a missing key; the first output
whose accuracy is strictly below the threshold is returned with its skill
name and accuracy; if the walk ends, the initial ("", "", None) is kept. -/
def selectLoop (accuracy : List (String × ℚ)) (accuracy_threshold : ℚ) :
    List (String × String) → Except String (String × String × Option ℚ)
  | [] => Except.ok ("", "", none)
  | (skill_output, skill_name) :: rest =>
    match lookupIn skill_output accuracy with
    | none => Except.error ("KeyError: " ++ skill_output)
    | some a =>
      if a < accuracy_threshold then Except.ok (skill_name, skill_output, some a)
      else selectLoop accuracy accuracy_threshold rest

/-- Embeds Agent.select_skill_to_train (base.py lines 200-227). -/
def select_skill_to_train (ss : SkillSet) (feedback : EnvironmentFeedback)
    (accuracy_threshold : ℚ) : Except String (String × String × Option ℚ) :=
  selectLoop (EnvironmentFeedback.get_accuracy feedback) accuracy_threshold
    (SkillSet.get_skill_outputs ss)

/-- One role-tagged turn of a runtime dialogue. -/
structure ChatMessage where
  role : String
  content : String
deriving DecidableEq

/-- Content of the system turn of pe_optimization (base.py line 231). -/
def systemContent : String := "You are a helpful assistant."

/-- Content of the first user turn of pe_optimization (base.py lines 236-256);
backslash-continued source lines are joined without a newline, exactly as
Python's line continuation inside the triple-quoted string does. -/
def collaborationContent : String :=
  "\nA prompt is a text paragraph that outlines the expected actions and instructs the model to generate a specific output. This prompt is concatenated with the input text, and the model then creates the required output. Formally, the prompt is a prefix to the input:\n\noutput = model(concatenate(prompt, input))\n\nModel can produce erroneous output if the prompt is not well defined. In our collaboration, we’ll work together to refine a prompt. The process consists of two main steps:\n\n## Step 1\nI will provide you with the current prompt, how the prompt is concatenated with the input text\n(i.e., \"full template\"), along with some example(s) that are associated with\nthis prompt. Each example contains the input, the final answer produced by the model, and the user feedback.\nYour task is to analyze the examples, determining whether the\nexisting prompt is decsribing the task reflected by these examples precisely, and suggest\nchanges to the prompt.\n\n## Step 2\nNext, you will carefully review your reasoning in step 1, integrate the insights to craft a\nnew, optimized prompt."

/-- Content of the fixed assistant acknowledgment turn (base.py lines
262-265). -/
def ackContent : String :=
  "Sure, I’d be happy to help you with this prompt engineering problem. Please provide me with the current prompt, the full template, and the examples."

/-- Content of the second user turn (base.py lines 271-300): the f-string
embedding the current instructions, the full template and the example blocks.
The doubled braces of the source render as a literal braced token. -/
def step1Content (skill : Skill) (examples : String) : String :=
  "\n## Current Prompt\n" ++ skill.instructions ++
  "\n\n## Full Template\n\x7bcurrent prompt\x7d\n" ++
  templateText skill.input_template ++ "\n" ++
  templateText skill.output_template ++
  "\n\n## Examples\n" ++ examples ++
  "\n\n## Instructions\nFor some of these examples, the user feedback points out that the model is not producing the correct output. This may be due to the prompt being misleading or not describing the task precisely.\n\nPlease examine the example(s) carefully. Note that the user feedback should be considered as ground truth, but the prompts (task descriptions) may be incorrect and need modification.\nFor each example, provide reasoning according to the following template:\n\n### Example <id>\nInput: <input>\nOutput: <output>\nFeedback: <feedback>\nIs the output correct according to the feedback: <yes or no, and your reasoning>\nTo output the correct label, is it necessary to edit the prompt: <yes or no, and your\nreasoning>\nIf yes, provide detailed analysis and actionable suggestions to edit the prompt: <analysis and\nsuggestions>\n"

/-- Content of the final user turn appended for phase 2 (base.py lines
310-322), the rewrite request embedding the current instructions again. -/
def step2Content (skill : Skill) : String :=
  "\nNow please carefully review your reasoning in Step 1 and help with Step 2: refining the prompt.\n\n## Current prompt\n" ++ skill.instructions ++
  "\n\n## Instructions\n\n- The new prompt should be concise and direct.\n- The new prompt should should describe the task precisely and address the points raised in the user feedback.\n- Include a few examples in the prompt to help the model learn the task, by providing inputs and outputs that follow full template.\n- Reply only with the prompt. Do not include other text.\n"

/-- The dialogue assembled before the first teacher call of pe_optimization:
system turn, task-definition user turn, fixed assistant acknowledgment, and
the user turn carrying instructions, full template and examples. -/
def peStep1Messages (skill : Skill) (examples : String) : List ChatMessage :=
  [⟨"system", systemContent⟩] ++
  [⟨"user", collaborationContent⟩] ++
  [⟨"assistant", ackContent⟩] ++
  [⟨"user", step1Content skill examples⟩]

/-- Embeds Agent.pe_optimization (base.py lines 229-328). The teacher runtime
is a function from the dialogue to an Except (a raised exception is
Except.error). Besides the returned value — the raw second response, returned
with no post-processing — the embedding records the list of dialogues passed
to teacher_runtime.execute, in call order, so that the interaction itself can
be reasoned about. -/
def pe_optimization (teacher_runtime : List ChatMessage → Except String String)
    (skill : Skill) (examples : String) :
    Except String String × List (List ChatMessage) :=
  let messages := peStep1Messages skill examples
  match teacher_runtime messages with
  | Except.error e => (Except.error e, [messages])
  | Except.ok reasoning =>
    let messages2 := messages ++
      [⟨"assistant", reasoning⟩, ⟨"user", step2Content skill⟩]
    (teacher_runtime messages2, [messages, messages2])

/-- The column rename in Agent.learn (base.py lines 367-369): feedback
columns that collide with prediction columns get a "__fb" suffix. -/
def renameFb (predCols : List String) (row : Row) : Row :=
  List.map (fun kv => (if kv.1 ∈ predCols then kv.1 ++ "__fb" else kv.1, kv.2))
    row

/-- fb.merge(predictions, left_index=True, right_index=True) followed by
to_dict(orient="records") for the row-aligned tables of the loop: rows are
matched positionally (both tables carry the same range index) and each merged
row lists the renamed feedback cells followed by the prediction cells. -/
def analyzedRows (predictions : Table) (fbTable : Table) : List Row :=
  List.map (fun pr => pr.1 ++ pr.2)
    (List.zip (List.map (renameFb predictions.cols) fbTable.rows)
      predictions.rows)

/-- The example-building loop of Agent.learn (base.py lines 385-395): for
each merged row in order, read row[output + "__fb"] (KeyError when the
column is absent), skip the row when that value is falsy, otherwise render
input_template and output_template against the row (KeyError propagates) and
emit the example block of the source f-string. -/
def buildExamples (train_skill : Skill) (train_skill_output : String) :
    List Row → Except String (List String)
  | [] => Except.ok []
  | row :: rest =>
    match lookupIn (train_skill_output ++ "__fb") row with
    | none => Except.error ("KeyError: " ++ train_skill_output ++ "__fb")
    | some fbv =>
      if Cell.truthy fbv = false then
        buildExamples train_skill train_skill_output rest
      else
        match formatTemplate row train_skill.input_template with
        | Except.error e => Except.error e
        | Except.ok itext =>
          match formatTemplate row train_skill.output_template with
          | Except.error e => Except.error e
          | Except.ok otext =>
            match buildExamples train_skill train_skill_output rest with
            | Except.error e => Except.error e
            | Except.ok restEx =>
              Except.ok
                ((itext ++ "\n" ++ otext ++ "\nFeedback: " ++ Cell.render fbv
                    ++ "\n\n") :: restEx)

/-- The opaque collaborators of one learning run, after the runtime names
have been resolved by get_runtime/get_teacher_runtime: the environment batch
per iteration, skills.apply under the worker runtime, the environment
feedback call, and the teacher runtime execute call. All four are external
services (spec §6); learn only composes them. -/
structure LearnEnv where
  batch : Nat → Table
  apply : SkillSet → Table → Table
  get_feedback : SkillSet → Table → EnvironmentFeedback
  teacher : List ChatMessage → Except String String

/-- One iteration of the body of Agent.learn (base.py lines 361-401) on the
current skill set: fetch the batch, predict, collect feedback, merge the
analyzed dataframe, select a skill; on the empty sentinel continue unchanged;
otherwise build the examples and run pe_optimization, committing the raw new
instructions. The result is (skill set after the iteration, dialogues passed
to the teacher runtime, exception escaping the iteration if any); the source
contains no try/except, so any error component is re-raised to the loop. -/
def learnIter (E : LearnEnv) (accuracy_threshold : ℚ) (ss : SkillSet)
    (i : Nat) : SkillSet × List (List ChatMessage) × Option String :=
  let inputs := E.batch i
  let predictions := E.apply ss inputs
  let feedback := E.get_feedback ss predictions
  let analyzed_df := analyzedRows predictions feedback.feedback
  match select_skill_to_train ss feedback accuracy_threshold with
  | Except.error e => (ss, [], some e)
  | Except.ok (train_skill_name, train_skill_output, _acc) =>
    if train_skill_name = "" then (ss, [], none)
    else
      match SkillSet.find? ss train_skill_name with
      | none => (ss, [], some ("KeyError: " ++ train_skill_name))
      | some train_skill =>
        match buildExamples train_skill train_skill_output analyzed_df with
        | Except.error e => (ss, [], some e)
        | Except.ok examples =>
          match pe_optimization E.teacher train_skill
              (String.intercalate "\n" examples) with
          | (Except.error e, calls) => (ss, calls, some e)
          | (Except.ok new_instructions, calls) =>
            (SkillSet.updateInstructions ss train_skill_name new_instructions,
              calls, none)

/-- The iteration loop of Agent.learn: runs the remaining iterations starting
at index i, accumulating the teacher dialogues. An exception escaping an
iteration stops the loop immediately and is re-raised (the source has no
try/except around the body), with the mutations of the earlier iterations
kept. -/
def learnLoop (E : LearnEnv) (accuracy_threshold : ℚ) :
    Nat → Nat → SkillSet → List (List ChatMessage) →
    SkillSet × List (List ChatMessage) × Option String
  | 0, _, ss, calls => (ss, calls, none)
  | Nat.succ n, i, ss, calls =>
    match learnIter E accuracy_threshold ss i with
    | (ss2, cs, some e) => (ss2, calls ++ cs, some e)
    | (ss2, cs, none) => learnLoop E accuracy_threshold n (i + 1) ss2 (calls ++ cs)

/-- Embeds Agent.learn (base.py lines 330-403) after get_runtime and
get_teacher_runtime have resolved the runtime names (those lookups precede
the loop and are not part of any iteration). Returns the final skill set, the
full list of teacher dialogues, and the exception escaping learn, if any. -/
def learn (E : LearnEnv) (learning_iterations : Nat) (accuracy_threshold : ℚ)
    (ss : SkillSet) : SkillSet × List (List ChatMessage) × Option String :=
  learnLoop E accuracy_threshold learning_iterations 0 ss []

/-- The configuration surface checked by verify_input_parameters: the names
(keys) of the two runtime mappings and the two default names. -/
structure AgentConfig where
  runtimes : List String
  teacher_runtimes : List String
  default_runtime : String
  default_teacher_runtime : String
deriving DecidableEq

/-- A construction-time configuration failure: the message printed via
print_error just before raising, and the message of the raised ValueError. -/
structure ConfigError where
  printed : String
  raised : String
deriving DecidableEq

/-- Python's str() of a list of strings, as interpolated by the f-string
in _raise_default_runtime_error. -/
def pyListStr (xs : List String) : String :=
  "[" ++ String.intercalate ", " (List.map (fun s => "\x27" ++ s ++ "\x27") xs)
    ++ "]"

/-- The part of the print_error f-string of _raise_default_runtime_error
before the interpolated list of available runtime names. -/
def drePrefix (val runtime : String) : String :=
  "The Agent." ++ runtime ++ " is set to " ++ val ++
    ", but this runtime is not available in the list: "

/-- The part of the print_error f-string of _raise_default_runtime_error
after the interpolated list of available runtime names. -/
def dreSuffix (runtime default_value : String) : String :=
  ". Please choose one of the available runtimes and initialize the agent again, for example:\n\nagent = Agent(..., "
    ++ runtime ++ "=\x27" ++ default_value ++
    "\x27)\n\nMake sure the default runtime is available in the list of runtimes. For example:\n\nagent = Agent(..., runtimes=\x7b\x27"
    ++ default_value ++ "\x27: OpenAIRuntime(model=\x27gpt-4\x27)\x7d)\n\n"

/-- The inner _raise_default_runtime_error of verify_input_parameters
(base.py lines 117-126): print_error emits a message naming the offending
Agent field and the list of available runtime names, then a ValueError is
raised. -/
def defaultRuntimeError (val runtime : String) (runtimes : List String)
    (default_value : String) : ConfigError :=
  { printed := drePrefix val runtime ++ pyListStr runtimes ++
      dreSuffix runtime default_value,
    raised := "default runtime " ++ val ++ " not found in provided runtimes." }

/-- Embeds the model-level validator verify_input_parameters (base.py lines
112-139): the default worker runtime name is checked first, then the default
teacher runtime name; the first missing one aborts with the corresponding
configuration error. -/
def verify_input_parameters (cfg : AgentConfig) : Except ConfigError AgentConfig :=
  if cfg.default_runtime ∉ cfg.runtimes then
    Except.error
      (defaultRuntimeError cfg.default_runtime "default_runtime" cfg.runtimes
        "openai")
  else if cfg.default_teacher_runtime ∉ cfg.teacher_runtimes then
    Except.error
      (defaultRuntimeError cfg.default_teacher_runtime
        "default_teacher_runtime" cfg.teacher_runtimes "openai-gpt4")
  else Except.ok cfg

/-- Agent construction: pydantic runs the mode="after" model validator during
__init__, so building an Agent runs verify_input_parameters on the validated
fields — eagerly, not deferred to any later use. -/
def mkAgent (cfg : AgentConfig) : Except ConfigError AgentConfig :=
  verify_input_parameters cfg

/-! Concrete fixtures used by the witnesses and counterexamples. -/

/-- Fixture rational 1/2, written as an explicit reduced fraction so that it
evaluates by kernel reduction. -/
def qHalf : ℚ := ⟨1, 2, by decide, by decide⟩

/-- Fixture rational 9/10, the default accuracy threshold of learn. -/
def qNineTenths : ℚ := ⟨9, 10, by decide, by decide⟩

/-- Fixture rational 19/20, an accuracy above the 9/10 threshold. -/
def qNineteenTwentieths : ℚ := ⟨19, 20, by decide, by decide⟩

/-- Fixture rational 4/5, an accuracy below the 9/10 threshold. -/
def qFourFifths : ℚ := ⟨4, 5, by decide, by decide⟩

/-- Fixture rational 1/10, a still lower accuracy. -/
def qTenth : ℚ := ⟨1, 10, by decide, by decide⟩

/-- Fixture: input template "Input: \x7btext\x7d". -/
def tmplIn : Template := [Frag.lit "Input: ", Frag.field "text"]

/-- Fixture: output template "Output: \x7bsummary\x7d". -/
def tmplOut : Template := [Frag.lit "Output: ", Frag.field "summary"]

/-- Fixture: a summarization skill. -/
def skSum : Skill := ⟨"summarize", "Summarize the text.", tmplIn, tmplOut⟩

/-- Fixture: a one-skill SkillSet with output "summary". -/
def ssSum : SkillSet := ⟨[skSum], [("summary", "summarize")]⟩

/-- Fixture: a one-row predictions table. -/
def predT : Table :=
  ⟨["text", "summary"], [[("text", Cell.cstr "hello"), ("summary", Cell.cstr "HI")]]⟩

/-- Fixture: the aligned feedback table with one critique string. -/
def fbT : Table := ⟨["summary"], [[("summary", Cell.cstr "too short")]]⟩

/-- Fixture: feedback whose accuracy is below the 9/10 threshold. -/
def fbLow : EnvironmentFeedback := ⟨fbT, [("summary", qHalf)]⟩

/-- Fixture: feedback whose accuracy is above the 9/10 threshold. -/
def fbHigh : EnvironmentFeedback := ⟨fbT, [("summary", qNineteenTwentieths)]⟩

/-- Fixture: the single example block built from predT/fbT for skSum. -/
def exsSum : List String := ["Input: hello\nOutput: HI\nFeedback: too short\n\n"]

/-- Fixture: a learning environment whose teacher runtime always raises. -/
def envRaise : LearnEnv :=
  ⟨fun _ => predT, fun _ _ => predT, fun _ _ => fbLow,
    fun _ => Except.error "RuntimeError"⟩

/-- Fixture: a learning environment whose teacher always returns empty content. -/
def envEmptyReply : LearnEnv :=
  ⟨fun _ => predT, fun _ _ => predT, fun _ _ => fbLow, fun _ => Except.ok ""⟩

/-- Fixture: an environment whose accuracies all pass; its teacher raises, so
any teacher call would surface as an error in the results. -/
def envAllPass : LearnEnv :=
  ⟨fun _ => predT, fun _ _ => predT, fun _ _ => fbHigh,
    fun _ => Except.error "teacher must not be called"⟩

/-- Fixture: a feedback table whose only critique cell is None. -/
def fbNoneT : Table := ⟨["summary"], [[("summary", Cell.cnone)]]⟩

/-- Fixture: below-threshold accuracy but no row-level feedback collected. -/
def fbLowNoFb : EnvironmentFeedback := ⟨fbNoneT, [("summary", qHalf)]⟩

/-- Fixture: a fixed teacher reply function. -/
def respW : List ChatMessage → String := fun _ => "IMPROVED PROMPT"

/-- Fixture: environment with below-threshold accuracy, no usable feedback
rows, and a succeeding teacher. -/
def envNoFb : LearnEnv :=
  ⟨fun _ => predT, fun _ _ => predT, fun _ _ => fbLowNoFb,
    fun d => Except.ok (respW d)⟩

/-- Fixture: a skill whose input template references a field absent from the
merged rows. -/
def skMiss : Skill :=
  ⟨"summarize", "Summarize the text.",
    [Frag.lit "Input: ", Frag.field "missing"], tmplOut⟩

/-- Fixture: the SkillSet holding skMiss. -/
def ssMiss : SkillSet := ⟨[skMiss], [("summary", "summarize")]⟩

/-- Fixture: environment for the template-error scenario; its teacher would
succeed if it were ever reached. -/
def envMiss : LearnEnv :=
  ⟨fun _ => predT, fun _ _ => predT, fun _ _ => fbLow, fun _ => Except.ok "NEW"⟩

/-- Fixture: a three-output SkillSet order for the selector claims. -/
def ssW2 : SkillSet := ⟨[], [("p", "skP"), ("a", "skA"), ("b", "skB")]⟩

/-- Fixture: accuracies where output "a" is the first below threshold and the
later output "b" has a strictly lower value. -/
def fbW2 : EnvironmentFeedback :=
  ⟨fbT, [("p", qNineteenTwentieths), ("a", qFourFifths), ("b", qTenth)]⟩

/-- Fixture: accuracy mapping missing the entry for output "a". -/
def fbW10 : EnvironmentFeedback := ⟨fbT, [("p", qNineteenTwentieths)]⟩

/-- Fixture: same accuracy mapping as fbW2 but a completely different
feedback table. -/
def fbAltTable : EnvironmentFeedback :=
  ⟨⟨["other"], [[("other", Cell.cstr "zzz")]]⟩,
    [("p", qNineteenTwentieths), ("a", qFourFifths), ("b", qTenth)]⟩

/-- Fixture: a classification skill for the example-builder claims. -/
def skCls : Skill :=
  ⟨"classify", "Classify.",
    [Frag.lit "Input: ", Frag.field "text"],
    [Frag.lit "Output: ", Frag.field "label"]⟩

/-- Fixture: merged rows whose feedback cells are NaN, None, the empty string
and a real critique, in that order. -/
def rowsC5 : List Row :=
  [[("label__fb", Cell.cnan), ("text", Cell.cstr "aa"), ("label", Cell.cstr "A")],
   [("label__fb", Cell.cnone), ("text", Cell.cstr "bb"), ("label", Cell.cstr "B")],
   [("label__fb", Cell.cstr ""), ("text", Cell.cstr "cc"), ("label", Cell.cstr "C")],
   [("label__fb", Cell.cstr "wrong"), ("text", Cell.cstr "dd"), ("label", Cell.cstr "D")]]

/-- Fixture: a teacher runtime that always replies "OK". -/
def teacherOk : List ChatMessage → Except String String :=
  fun _ => Except.ok "OK"

/-- Fixture: a configuration whose default names are both present. -/
def cfgGood : AgentConfig :=
  ⟨["openai"], ["openai-gpt3"], "openai", "openai-gpt3"⟩

/-- Fixture: configuration whose default worker runtime name is absent. -/
def cfgBadWorker : AgentConfig :=
  ⟨["openai"], ["openai-gpt3"], "gpt5", "openai-gpt3"⟩

/-- Fixture: configuration whose default teacher runtime name is absent. -/
def cfgBadTeacher : AgentConfig :=
  ⟨["openai"], ["openai-gpt3"], "openai", "teacher-x"⟩

/-! Theorems. -/

/-- Helper: the selector scan walks without effect over a prefix of outputs
whose accuracies are present and not below the threshold. -/
theorem selectLoop_append_pass (accuracy : List (String × ℚ)) (thr : ℚ)
    (pre outs : List (String × String))
    (hpre : ∀ p ∈ pre, ∃ a, lookupIn p.1 accuracy = some a ∧ ¬ a < thr) :
    selectLoop accuracy thr (pre ++ outs) = selectLoop accuracy thr outs := by
  induction pre with
  | nil => rfl
  | cons hd tl ih =>
    obtain ⟨o, s⟩ := hd
    obtain ⟨a, ha, hnl⟩ := hpre (o, s) (List.mem_cons_self _ _)
    have ha2 : lookupIn o accuracy = some a := ha
    have h1 : selectLoop accuracy thr ((o, s) :: (tl ++ outs)) =
        selectLoop accuracy thr (tl ++ outs) := by
      simp only [selectLoop, ha2]
      rw [if_neg hnl]
    rw [List.cons_append, h1]
    exact ih fun p hp => hpre p (List.mem_cons_of_mem _ hp)

/-- C2 (confirmed): for every accuracy mapping in which some output of the
SkillSet's output-name order is strictly below the threshold while every
earlier output carries an accuracy at or above it, select_skill_to_train
returns exactly that first below-threshold output, paired with its owning
skill name and its accuracy value. The tie-break is first occurrence in the
declared order, not lowest value: nothing after the first hit is inspected
(the witness has a later output with a strictly lower accuracy). -/
theorem c2_selector_returns_first_below_threshold
    (ss : SkillSet) (feedback : EnvironmentFeedback) (thr a : ℚ)
    (pre rest : List (String × String)) (o s : String)
    (hout : SkillSet.get_skill_outputs ss = pre ++ (o, s) :: rest)
    (hpre : ∀ p ∈ pre, ∃ b,
      lookupIn p.1 (EnvironmentFeedback.get_accuracy feedback) = some b ∧
        ¬ b < thr)
    (ha : lookupIn o (EnvironmentFeedback.get_accuracy feedback) = some a)
    (hlt : a < thr) :
    select_skill_to_train ss feedback thr = Except.ok (s, o, some a) := by
  unfold select_skill_to_train
  rw [hout, selectLoop_append_pass _ _ _ _ hpre]
  simp only [selectLoop, ha]
  rw [if_pos hlt]

/-- Witness for C2: threshold 9/10, outputs p, a, b with accuracies 19/20,
4/5, 1/10: the selector returns ("skA", "a", 4/5) — the first below-threshold
output, not the lower-accuracy "b". -/
theorem c2_witness :
    select_skill_to_train ssW2 fbW2 qNineTenths =
      Except.ok ("skA", "a", some qFourFifths) := by
  have hpre : ∀ p ∈ [("p", "skP")], ∃ b,
      lookupIn p.1 (EnvironmentFeedback.get_accuracy fbW2) = some b ∧
        ¬ b < qNineTenths := by
    intro p hp
    have hp2 : p = ("p", "skP") := List.mem_singleton.mp hp
    subst hp2
    exact ⟨qNineteenTwentieths, rfl, by decide⟩
  exact c2_selector_returns_first_below_threshold ssW2 fbW2 qNineTenths
    qFourFifths [("p", "skP")] [("b", "skB")] "a" "skA" rfl hpre rfl
    (by decide)

/-- C3 (confirmed): when every output of the SkillSet order has an accuracy
at or above the threshold, select_skill_to_train returns the empty sentinel
("", "", None), and the learning-loop iteration is a no-op: the skill set is
returned unchanged, no teacher dialogue is issued (so no refiner call and no
example building reaches the teacher), and no error escapes. -/
theorem c3_all_pass_empty_sentinel_and_noop_iteration
    (E : LearnEnv) (thr : ℚ) (ss : SkillSet) (i : Nat)
    (hacc : ∀ p ∈ SkillSet.get_skill_outputs ss, ∃ a,
      lookupIn p.1
          (EnvironmentFeedback.get_accuracy
            (E.get_feedback ss (E.apply ss (E.batch i)))) = some a ∧
        thr ≤ a) :
    select_skill_to_train ss (E.get_feedback ss (E.apply ss (E.batch i))) thr =
        Except.ok ("", "", none) ∧
      learnIter E thr ss i = (ss, [], none) := by
  have hpre : ∀ p ∈ SkillSet.get_skill_outputs ss, ∃ a,
      lookupIn p.1
          (EnvironmentFeedback.get_accuracy
            (E.get_feedback ss (E.apply ss (E.batch i)))) = some a ∧
        ¬ a < thr :=
    fun p hp => (hacc p hp).imp fun a hh => ⟨hh.1, not_lt.mpr hh.2⟩
  have hsel : select_skill_to_train ss
      (E.get_feedback ss (E.apply ss (E.batch i))) thr =
      Except.ok ("", "", none) := by
    unfold select_skill_to_train
    have hstep := selectLoop_append_pass
      (EnvironmentFeedback.get_accuracy
        (E.get_feedback ss (E.apply ss (E.batch i)))) thr
      (SkillSet.get_skill_outputs ss) [] hpre
    rw [List.append_nil] at hstep
    rw [hstep]
    rfl
  refine ⟨hsel, ?_⟩
  simp only [learnIter, hsel]
  rfl

/-- Witness for C3: threshold 9/10 and accuracy 19/20 for the only output:
the sentinel is returned and the iteration leaves everything unchanged with
zero teacher calls. -/
theorem c3_witness :
    select_skill_to_train ssSum
        (envAllPass.get_feedback ssSum (envAllPass.apply ssSum (envAllPass.batch 0)))
        qNineTenths = Except.ok ("", "", none) ∧
      learnIter envAllPass qNineTenths ssSum 0 = (ssSum, [], none) := by
  refine c3_all_pass_empty_sentinel_and_noop_iteration envAllPass qNineTenths
    ssSum 0 ?_
  intro p hp
  have hp2 : p ∈ [(("summary" : String), ("summarize" : String))] := hp
  have hp3 : p = ("summary", "summarize") := List.mem_singleton.mp hp2
  subst hp3
  exact ⟨qNineteenTwentieths, rfl, by decide⟩

/-- C8 (confirmed): the selector is a pure function of the feedback accuracy
mapping and the SkillSet output order: two invocations agreeing on those two
inputs return identical triples, whatever else (for example the row-level
feedback table) differs — no randomness, no clock, no table index order. -/
theorem c8_selector_deterministic
    (ss1 ss2 : SkillSet) (fb1 fb2 : EnvironmentFeedback) (thr : ℚ)
    (hA : EnvironmentFeedback.get_accuracy fb1 =
      EnvironmentFeedback.get_accuracy fb2)
    (hS : SkillSet.get_skill_outputs ss1 = SkillSet.get_skill_outputs ss2) :
    select_skill_to_train ss1 fb1 thr = select_skill_to_train ss2 fb2 thr := by
  unfold select_skill_to_train
  rw [hA, hS]

/-- Witness for C8: fbW2 and fbAltTable carry distinct feedback tables but
the same accuracy mapping; the selector results coincide. -/
theorem c8_witness :
    fbW2.feedback ≠ fbAltTable.feedback ∧
      select_skill_to_train ssW2 fbW2 qNineTenths =
        select_skill_to_train ssW2 fbAltTable qNineTenths :=
  ⟨by decide,
    c8_selector_deterministic ssW2 ssW2 fbW2 fbAltTable qNineTenths rfl rfl⟩

/-- C10 (confirmed): when an output of the SkillSet order has no entry in the
accuracy mapping and every earlier output passes the threshold, the dict
access accuracy[skill_output] raises KeyError: the selector neither skips the
unmeasured output nor treats it as failing, and no sentinel or selection is
returned. -/
theorem c10_missing_accuracy_raises_keyerror
    (ss : SkillSet) (feedback : EnvironmentFeedback) (thr : ℚ)
    (pre rest : List (String × String)) (o s : String)
    (hout : SkillSet.get_skill_outputs ss = pre ++ (o, s) :: rest)
    (hpre : ∀ p ∈ pre, ∃ b,
      lookupIn p.1 (EnvironmentFeedback.get_accuracy feedback) = some b ∧
        ¬ b < thr)
    (hmiss : lookupIn o (EnvironmentFeedback.get_accuracy feedback) = none) :
    select_skill_to_train ss feedback thr =
      Except.error ("KeyError: " ++ o) := by
  unfold select_skill_to_train
  rw [hout, selectLoop_append_pass _ _ _ _ hpre]
  simp only [selectLoop, hmiss]

/-- Witness for C10: the mapping lacks output "a" after a passing output "p";
the selector raises KeyError for "a". -/
theorem c10_witness :
    select_skill_to_train ssW2 fbW10 qNineTenths =
      Except.error ("KeyError: " ++ "a") := by
  have hpre : ∀ p ∈ [("p", "skP")], ∃ b,
      lookupIn p.1 (EnvironmentFeedback.get_accuracy fbW10) = some b ∧
        ¬ b < qNineTenths := by
    intro p hp
    have hp2 : p = ("p", "skP") := List.mem_singleton.mp hp
    subst hp2
    exact ⟨qNineteenTwentieths, rfl, by decide⟩
  exact c10_missing_accuracy_raises_keyerror ssW2 fbW10 qNineTenths
    [("p", "skP")] [("b", "skB")] "a" "skA" rfl hpre rfl

/-- C4 (confirmed): provided the first teacher call returns a response (so
the Python function reaches its second call instead of unwinding),
pe_optimization issues exactly two calls to the teacher runtime: the
recorded dialogues are the phase-1 dialogue and that same dialogue —
prefix preserved — extended with exactly two appended turns, an assistant
turn carrying the first response verbatim and the user rewrite request; the
returned value is the raw result of the second call, with no
post-processing, truncation or validation. -/
theorem c4_refiner_two_calls
    (teacher : List ChatMessage → Except String String) (skill : Skill)
    (examples r1 : String)
    (h1 : teacher (peStep1Messages skill examples) = Except.ok r1) :
    pe_optimization teacher skill examples =
      (teacher (peStep1Messages skill examples ++
          [⟨"assistant", r1⟩, ⟨"user", step2Content skill⟩]),
        [peStep1Messages skill examples,
          peStep1Messages skill examples ++
            [⟨"assistant", r1⟩, ⟨"user", step2Content skill⟩]]) := by
  simp only [pe_optimization, h1]

/-- Witness for C4: a concrete teacher replying "OK": the refiner records
exactly the two dialogues and returns the second raw reply. -/
theorem c4_witness :
    pe_optimization teacherOk skSum "E" =
      (teacherOk (peStep1Messages skSum "E" ++
          [⟨"assistant", "OK"⟩, ⟨"user", step2Content skSum⟩]),
        [peStep1Messages skSum "E",
          peStep1Messages skSum "E" ++
            [⟨"assistant", "OK"⟩, ⟨"user", step2Content skSum⟩]]) :=
  c4_refiner_two_calls teacherOk skSum "E" "OK" rfl

/-- C5 (code bug): the builder guard `if not row[...]` skips None and the
empty string but NOT the float NaN that pandas uses for an absent feedback
value, because bool(nan) is True in Python — contradicting the source's own
comment on base.py line 388 ("if fb marked as NaN, skip") and the claim that
rows with null feedback are excluded. Of the four rows of rowsC5 only the
last carries non-null, non-empty feedback, yet two example blocks are
produced: the first renders the NaN row (with the literal text "nan" as its
feedback). Row order and the exclusion of the None/empty rows do match the
claim. -/
theorem c5_nan_feedback_row_included :
    buildExamples skCls "label" rowsC5 =
      Except.ok
        ["Input: aa\nOutput: A\nFeedback: nan\n\n",
         "Input: dd\nOutput: D\nFeedback: wrong\n\n"] := by
  rfl

/-- C7 (confirmed): whenever the default worker runtime name is not a key of
the runtimes mapping — or, that check passing, the default teacher runtime
name is not a key of the teacher runtimes mapping — agent construction (which
runs the mode="after" validator inside __init__, eagerly) fails with a
configuration error whose printed message names the offending field
(default_runtime resp. default_teacher_runtime) and lists the available
names; and when both names are present, construction succeeds, so the check
is decided at construction, never deferred to first use. -/
theorem c7_construction_fails_eagerly (cfg : AgentConfig) :
    (cfg.default_runtime ∉ cfg.runtimes →
      ∃ e : ConfigError, mkAgent cfg = Except.error e ∧
        (∃ u v, e.printed = u ++ "default_runtime" ++ v) ∧
        (∃ u v, e.printed = u ++ pyListStr cfg.runtimes ++ v)) ∧
    (cfg.default_runtime ∈ cfg.runtimes →
      cfg.default_teacher_runtime ∉ cfg.teacher_runtimes →
      ∃ e : ConfigError, mkAgent cfg = Except.error e ∧
        (∃ u v, e.printed = u ++ "default_teacher_runtime" ++ v) ∧
        (∃ u v, e.printed = u ++ pyListStr cfg.teacher_runtimes ++ v)) ∧
    (cfg.default_runtime ∈ cfg.runtimes →
      cfg.default_teacher_runtime ∈ cfg.teacher_runtimes →
      mkAgent cfg = Except.ok cfg) := by
  refine ⟨fun h1 => ?_, fun h1 h2 => ?_, fun h1 h2 => ?_⟩
  · refine ⟨defaultRuntimeError cfg.default_runtime "default_runtime"
        cfg.runtimes "openai", ?_, ?_, ?_⟩
    · unfold mkAgent verify_input_parameters
      rw [if_pos h1]
    · exact ⟨"The Agent.",
        " is set to " ++ cfg.default_runtime ++
          ", but this runtime is not available in the list: " ++
          pyListStr cfg.runtimes ++ dreSuffix "default_runtime" "openai",
        by simp only [defaultRuntimeError, drePrefix, String.append_assoc]⟩
    · exact ⟨drePrefix cfg.default_runtime "default_runtime",
        dreSuffix "default_runtime" "openai", rfl⟩
  · refine ⟨defaultRuntimeError cfg.default_teacher_runtime
        "default_teacher_runtime" cfg.teacher_runtimes "openai-gpt4", ?_, ?_, ?_⟩
    · unfold mkAgent verify_input_parameters
      rw [if_neg (not_not_intro h1), if_pos h2]
    · exact ⟨"The Agent.",
        " is set to " ++ cfg.default_teacher_runtime ++
          ", but this runtime is not available in the list: " ++
          pyListStr cfg.teacher_runtimes ++
          dreSuffix "default_teacher_runtime" "openai-gpt4",
        by simp only [defaultRuntimeError, drePrefix, String.append_assoc]⟩
    · exact ⟨drePrefix cfg.default_teacher_runtime "default_teacher_runtime",
        dreSuffix "default_teacher_runtime" "openai-gpt4", rfl⟩
  · unfold mkAgent verify_input_parameters
    rw [if_neg (not_not_intro h1), if_neg (not_not_intro h2)]

/-- Witness for C7: a config with an unknown worker default and a config
with an unknown teacher default both fail construction with an error naming
the field and listing the available names; the good config succeeds. -/
theorem c7_witness :
    (∃ e : ConfigError, mkAgent cfgBadWorker = Except.error e ∧
      (∃ u v, e.printed = u ++ "default_runtime" ++ v) ∧
      (∃ u v, e.printed = u ++ pyListStr cfgBadWorker.runtimes ++ v)) ∧
    (∃ e : ConfigError, mkAgent cfgBadTeacher = Except.error e ∧
      (∃ u v, e.printed = u ++ "default_teacher_runtime" ++ v) ∧
      (∃ u v, e.printed = u ++ pyListStr cfgBadTeacher.teacher_runtimes ++ v)) ∧
    mkAgent cfgGood = Except.ok cfgGood :=
  ⟨(c7_construction_fails_eagerly cfgBadWorker).1 (by decide),
    (c7_construction_fails_eagerly cfgBadTeacher).2.1 (by decide) (by decide),
    (c7_construction_fails_eagerly cfgGood).2.2 (by decide) (by decide)⟩

/-- C9 (confirmed): in an iteration where a skill is selected but the example
builder returns zero blocks (no row carries usable feedback for the selected
output), the refinement is still attempted rather than skipped or raising:
with a succeeding teacher the iteration issues the two refiner dialogues
whose examples section is the empty string ("\n".join of an empty list) and
commits the teacher's reply, finishing without error. -/
theorem c9_zero_examples_still_refines
    (E : LearnEnv) (thr : ℚ) (ss : SkillSet) (i : Nat)
    (tsn tso : String) (acc : Option ℚ) (sk : Skill)
    (resp : List ChatMessage → String)
    (hteach : E.teacher = fun d => Except.ok (resp d))
    (hsel : select_skill_to_train ss
        (E.get_feedback ss (E.apply ss (E.batch i))) thr =
      Except.ok (tsn, tso, acc))
    (hne : ¬ tsn = "")
    (hfind : SkillSet.find? ss tsn = some sk)
    (hex : buildExamples sk tso
        (analyzedRows (E.apply ss (E.batch i))
          (E.get_feedback ss (E.apply ss (E.batch i))).feedback) =
      Except.ok []) :
    learnIter E thr ss i =
      (SkillSet.updateInstructions ss tsn
          (resp (peStep1Messages sk "" ++
            [⟨"assistant", resp (peStep1Messages sk "")⟩,
             ⟨"user", step2Content sk⟩])),
        [peStep1Messages sk "",
          peStep1Messages sk "" ++
            [⟨"assistant", resp (peStep1Messages sk "")⟩,
             ⟨"user", step2Content sk⟩]],
        none) := by
  have hint : String.intercalate "\n" ([] : List String) = "" := rfl
  simp only [learnIter, hsel, hfind, hex, hint, pe_optimization, hteach,
    if_neg hne]

/-- Witness for C9: accuracy 1/2 below the 9/10 threshold selects the skill,
the only feedback cell is None so zero examples are built, and the refiner
still runs both phases with an empty examples text. -/
theorem c9_witness :
    learnIter envNoFb qNineTenths ssSum 0 =
      (SkillSet.updateInstructions ssSum "summarize"
          (respW (peStep1Messages skSum "" ++
            [⟨"assistant", respW (peStep1Messages skSum "")⟩,
             ⟨"user", step2Content skSum⟩])),
        [peStep1Messages skSum "",
          peStep1Messages skSum "" ++
            [⟨"assistant", respW (peStep1Messages skSum "")⟩,
             ⟨"user", step2Content skSum⟩]],
        none) :=
  c9_zero_examples_still_refines envNoFb qNineTenths ssSum 0 "summarize"
    "summary" (some qHalf) skSum respW rfl (by rfl) (by decide) (by rfl)
    (by rfl)

/-- Counterexample for C1: the learn loop of the source contains no
try/except. With a teacher runtime that raises, a 2-iteration run ends with
the exception escaping learn (error component some "RuntimeError"), so the
failure IS re-raised and the remaining iteration never executes — contrary
to the claim. And with a teacher returning empty content, the run is treated
as a success: the skill's instructions, "Summarize the text." beforehand,
are overwritten with the empty string — not bit-identical as claimed. -/
theorem c1_counterexample :
    (learn envRaise 2 qNineTenths ssSum).2.2 = some "RuntimeError" ∧
      Option.map Skill.instructions
          (SkillSet.find? (learn envEmptyReply 2 qNineTenths ssSum).1 "summarize") =
        some "" ∧
      Option.map Skill.instructions (SkillSet.find? ssSum "summarize") =
        some "Summarize the text." :=
  ⟨by rfl, by rfl, by rfl⟩

/-- C1 (amended & proved): when a teacher runtime call raises during
refinement, the selected skill's instructions are unchanged at that point,
but the exception propagates out of learn — the failure is re-raised and the
remaining configured iterations do not run (first conjunct: for every
remaining count n, the run ends at iteration 0 with the error). When the
teacher returns empty content, no failure is detected: the empty string is
committed as the skill's new instructions and the iteration completes
normally, the loop continuing (second conjunct). -/
theorem c1_amended_refinement_failure_behavior :
    (∀ (E : LearnEnv) (n : Nat) (thr : ℚ) (ss : SkillSet)
        (tsn tso : String) (acc : Option ℚ) (sk : Skill) (exs : List String)
        (err : String),
      E.teacher = (fun _ => Except.error err) →
      select_skill_to_train ss
          (E.get_feedback ss (E.apply ss (E.batch 0))) thr =
        Except.ok (tsn, tso, acc) →
      ¬ tsn = "" →
      SkillSet.find? ss tsn = some sk →
      buildExamples sk tso
          (analyzedRows (E.apply ss (E.batch 0))
            (E.get_feedback ss (E.apply ss (E.batch 0))).feedback) =
        Except.ok exs →
      learn E (n + 1) thr ss =
        (ss, [peStep1Messages sk (String.intercalate "\n" exs)], some err)) ∧
    (∀ (E : LearnEnv) (thr : ℚ) (ss : SkillSet) (i : Nat)
        (tsn tso : String) (acc : Option ℚ) (sk : Skill) (exs : List String),
      E.teacher = (fun _ => Except.ok "") →
      select_skill_to_train ss
          (E.get_feedback ss (E.apply ss (E.batch i))) thr =
        Except.ok (tsn, tso, acc) →
      ¬ tsn = "" →
      SkillSet.find? ss tsn = some sk →
      buildExamples sk tso
          (analyzedRows (E.apply ss (E.batch i))
            (E.get_feedback ss (E.apply ss (E.batch i))).feedback) =
        Except.ok exs →
      learnIter E thr ss i =
        (SkillSet.updateInstructions ss tsn "",
          [peStep1Messages sk (String.intercalate "\n" exs),
            peStep1Messages sk (String.intercalate "\n" exs) ++
              [⟨"assistant", ""⟩, ⟨"user", step2Content sk⟩]],
          none)) := by
  constructor
  · intro E n thr ss tsn tso acc sk exs err hteach hsel hne hfind hex
    have hit : learnIter E thr ss 0 =
        (ss, [peStep1Messages sk (String.intercalate "\n" exs)], some err) := by
      simp only [learnIter, hsel, hfind, hex, pe_optimization, hteach,
        if_neg hne]
    simp only [learn, learnLoop, hit, List.nil_append]
  · intro E thr ss i tsn tso acc sk exs hteach hsel hne hfind hex
    simp only [learnIter, hsel, hfind, hex, pe_optimization, hteach,
      if_neg hne]

/-- Witness for C1's amended statement: the raising-teacher run of the
counterexample ends at iteration 0 with unchanged skills and the re-raised
error after a single teacher dialogue, and the empty-content iteration
commits "" and continues. -/
theorem c1_amended_witness :
    learn envRaise 2 qNineTenths ssSum =
      (ssSum, [peStep1Messages skSum (String.intercalate "\n" exsSum)],
        some "RuntimeError") ∧
      learnIter envEmptyReply qNineTenths ssSum 0 =
        (SkillSet.updateInstructions ssSum "summarize" "",
          [peStep1Messages skSum (String.intercalate "\n" exsSum),
            peStep1Messages skSum (String.intercalate "\n" exsSum) ++
              [⟨"assistant", ""⟩, ⟨"user", step2Content skSum⟩]],
          none) :=
  ⟨c1_amended_refinement_failure_behavior.1 envRaise 1 qNineTenths ssSum
      "summarize" "summary" (some qHalf) skSum exsSum "RuntimeError" rfl
      (by rfl) (by decide) (by rfl) (by rfl),
    c1_amended_refinement_failure_behavior.2 envEmptyReply qNineTenths ssSum 0
      "summarize" "summary" (some qHalf) skSum exsSum rfl (by rfl)
      (by decide) (by rfl) (by rfl)⟩

/-- Counterexample for C6: with a skill whose input template references the
absent field "missing", a 2-iteration run ends immediately: the KeyError
escapes learn (error component some) with zero teacher dialogues, so the
overall learning run IS aborted and the remaining iteration does not
execute — contrary to the claim that only that iteration's refinement is
skipped while the run continues. -/
theorem c6_counterexample :
    learn envMiss 2 qNineTenths ssMiss =
      (ssMiss, [], some "KeyError: missing") := by
  rfl

/-- C6 (amended & proved): when rendering a training example's template
references a field absent from the row, the KeyError propagates and aborts
example-building for that iteration and no refinement is attempted (no
teacher dialogue is issued, instructions stay unchanged) — but the error
escapes learn, aborting the whole learning run: for every remaining
iteration count n, the run ends at iteration 0 with the error. -/
theorem c6_amended_template_error_aborts_run
    (E : LearnEnv) (n : Nat) (thr : ℚ) (ss : SkillSet)
    (tsn tso : String) (acc : Option ℚ) (sk : Skill) (e : String)
    (hsel : select_skill_to_train ss
        (E.get_feedback ss (E.apply ss (E.batch 0))) thr =
      Except.ok (tsn, tso, acc))
    (hne : ¬ tsn = "")
    (hfind : SkillSet.find? ss tsn = some sk)
    (hbuild : buildExamples sk tso
        (analyzedRows (E.apply ss (E.batch 0))
          (E.get_feedback ss (E.apply ss (E.batch 0))).feedback) =
      Except.error e) :
    learn E (n + 1) thr ss = (ss, [], some e) := by
  have hit : learnIter E thr ss 0 = (ss, [], some e) := by
    simp only [learnIter, hsel, hfind, hbuild, if_neg hne]
  simp only [learn, learnLoop, hit, List.append_nil]

/-- Witness for C6's amended statement: the missing-field fixture run with a
single configured iteration ends with the propagated KeyError, no teacher
calls, and unchanged skills. -/
theorem c6_amended_witness :
    learn envMiss 1 qNineTenths ssMiss = (ssMiss, [], some "KeyError: missing") :=
  c6_amended_template_error_aborts_run envMiss 0 qNineTenths ssMiss
    "summarize" "summary" (some qHalf) skMiss "KeyError: missing" (by rfl)
    (by decide) (by rfl) (by rfl)

end Adala
